import Mathlib

/-!
Verification of the PagerDuty API client
(src/plugins/pagerduty/src/api/client.ts) against its natural-language
specification.

The client is embedded shallowly:
  * JSON values are the inductive type `Json`; a transport response body
    that is not well-formed JSON is modelled as `none` (calling
    `response.json()` on it throws, modelled as `ClientError.decodeError`).
  * The injected collaborators are plain functions: `discoveryApi`
    maps a logical name to a base URL, `fetchApi` maps a URL and request
    options to a `Response`.
  * Thrown exceptions become `Except ClientError`; the constructors
    `unauthorizedError` and `notFoundError` mirror the classes
    `UnauthorizedError` and `NotFoundError` (both payload-free),
    `genericError` mirrors a plain `Error` with a message, and
    `decodeError` / `typeError` mirror the unhandled JavaScript
    conditions raised by `response.json()` on a malformed body and by
    `payload.errors.map` when `errors` is absent or not an array.
-/

/-- JSON values, as decoded by `response.json()`. -/
inductive Json where
  | null : Json
  | bool : Bool → Json
  | num : Int → Json
  | str : String → Json
  | arr : List Json → Json
  | obj : List (String × Json) → Json

/-- Property access `j.k` on a decoded JSON value: a field of an object,
`none` (i.e. `undefined`) otherwise. -/
def Json.lookupField : Json → String → Option Json
  | .obj fields, k => fields.lookup k
  | _, _ => none

/-- The error conditions a client call can raise. -/
inductive ClientError where
  | unauthorizedError : ClientError
  | notFoundError : ClientError
  | genericError : String → ClientError
  | decodeError : ClientError
  | typeError : ClientError
deriving DecidableEq

/-- Whether the condition is the generic failure (a plain `Error` with a
message). -/
def ClientError.isGeneric : ClientError → Bool
  | .genericError _ => true
  | _ => false

/-- The message payload carried by the condition, if any. -/
def ClientError.message? : ClientError → Option String
  | .genericError m => some m
  | _ => none

/-- An HTTP response from the transport. `body` is the decoded JSON body;
`none` models a body that is not well-formed JSON. -/
structure Response where
  status : Nat
  body : Option Json

/-- `response.ok`: status in the 2xx range. -/
def Response.ok (r : Response) : Bool :=
  200 ≤ r.status && r.status ≤ 299

/-- `response.json()`: the decoded body, or a thrown decoding failure when
the body is not well-formed JSON. -/
def Response.json (r : Response) : Except ClientError Json :=
  match r.body with
  | some j => .ok j
  | none => .error .decodeError

/-- Options passed to the transport. `body` is the serialized request
body, when present. -/
structure RequestOptions where
  method : String
  headers : List (String × String)
  body : Option String

/-- The configuration captured at construction: optional events base URL,
discovery function and transport function. -/
structure ClientApiConfig where
  eventsBaseUrl : Option String
  discoveryApi : String → String
  fetchApi : String → RequestOptions → Response

mutual

/-- JavaScript string conversion of one element as performed by
`Array.prototype.join`: `null` renders as the empty string, arrays
recursively join with commas, objects render as their default tag. -/
def jsJoinElem : Json → String
  | .null => ""
  | .bool b => if b then "true" else "false"
  | .num n => toString n
  | .str s => s
  | .arr l => jsJoinList l ","
  | .obj _ => "[object Object]"

/-- `Array.prototype.join(sep)` over decoded JSON elements. -/
def jsJoinList : List Json → String → String
  | [], _ => ""
  | [j], _ => jsJoinElem j
  | j :: rest, sep => jsJoinElem j ++ sep ++ jsJoinList rest sep

end

/-- String escaping performed by `JSON.stringify` on string values. -/
def jsonEscapeChar (c : Char) : String :=
  if c = '"' then "\\\""
  else if c = '\\' then "\\\\"
  else if c = '\n' then "\\n"
  else if c = '\t' then "\\t"
  else if c = '\r' then "\\r"
  else String.singleton c

def jsonEscape (s : String) : String :=
  String.join (s.data.map jsonEscapeChar)

mutual

/-- `JSON.stringify` over decoded JSON values. -/
def Json.stringify : Json → String
  | .null => "null"
  | .bool b => if b then "true" else "false"
  | .num n => toString n
  | .str s => "\"" ++ jsonEscape s ++ "\""
  | .arr l => "[" ++ stringifyArr l ++ "]"
  | .obj fields => "\x7b" ++ stringifyObj fields ++ "\x7d"

def stringifyArr : List Json → String
  | [] => ""
  | [j] => Json.stringify j
  | j :: rest => Json.stringify j ++ "," ++ stringifyArr rest

def stringifyObj : List (String × Json) → String
  | [] => ""
  | [(k, v)] => "\"" ++ jsonEscape k ++ "\":" ++ Json.stringify v
  | (k, v) :: rest =>
      "\"" ++ jsonEscape k ++ "\":" ++ Json.stringify v ++ "," ++ stringifyObj rest

end

/-!
The client itself. Each `async` method performs one transport call and
classifies the response; we embed each method as a function of the
configuration. URL strings are built by the same literal template
concatenation as in the source; each method's URL construction is split
into a `...Url` helper so that theorems can speak about the URL that is
passed to the transport.
-/

/-- The shared status classifier `PagerDutyClient.request`: 401 raises
`UnauthorizedError`, 404 raises `NotFoundError`, any other non-2xx decodes
the error body, joins its `errors` array with single spaces and raises a
generic `Error`; a 2xx response is returned unchanged. On the non-2xx
path, a malformed body raises the decoding failure of `response.json()`
and a body whose `errors` field is absent or not an array raises the
`TypeError` of `payload.errors.map`. -/
def request (cfg : ClientApiConfig) (url : String) (options : RequestOptions) :
    Except ClientError Response :=
  let response := cfg.fetchApi url options
  if response.status = 401 then
    .error .unauthorizedError
  else if response.status = 404 then
    .error .notFoundError
  else if !response.ok then
    match response.json with
    | .error e => .error e
    | .ok payload =>
      match payload.lookupField "errors" with
      | some (.arr errs) =>
          .error (.genericError
            ("Request failed with " ++ toString response.status ++ ", " ++
              jsJoinList errs " "))
      | _ => .error .typeError
  else
    .ok response

/-- The headers used by every GET helper (`PagerDutyClient.getByUrl`). -/
def getOptions : RequestOptions :=
  { method := "GET"
    headers :=
      [("Accept", "application/vnd.pagerduty+json;version=2"),
       ("Content-Type", "application/json")]
    body := none }

/-- `PagerDutyClient.getByUrl`: GET the URL through the classifier and
decode the JSON body of the successful response. -/
def getByUrl (cfg : ClientApiConfig) (url : String) : Except ClientError Json :=
  match request cfg url getOptions with
  | .error e => .error e
  | .ok response => response.json

/-- Destructuring `const \x7b field \x7d = json` on a decoded value:
destructuring `null` throws a `TypeError`; otherwise the field is looked
up, yielding `none` (i.e. `undefined`) when absent. -/
def destructureField (j : Json) (field : String) :
    Except ClientError (Option Json) :=
  match j with
  | .null => .error .typeError
  | _ => .ok (j.lookupField field)

/-- `commonGetServiceParams` from the source. -/
def commonGetServiceParams : String :=
  "time_zone=UTC&include[]=integrations&include[]=escalation_policies"

/-- The URL built by `getServiceByIntegrationKey`. -/
def getServiceByIntegrationKeyUrl (cfg : ClientApiConfig)
    (integrationKey : String) : String :=
  let params := commonGetServiceParams ++ "&query=" ++ integrationKey
  cfg.discoveryApi "proxy" ++ "/pagerduty/services?" ++ params

/-- `PagerDutyClient.getServiceByIntegrationKey`: GET the services listing
filtered by the integration key and return the `services` field. -/
def getServiceByIntegrationKey (cfg : ClientApiConfig)
    (integrationKey : String) : Except ClientError (Option Json) :=
  match getByUrl cfg (getServiceByIntegrationKeyUrl cfg integrationKey) with
  | .error e => .error e
  | .ok json => destructureField json "services"

/-- The URL built by `getServiceByServiceId`. -/
def getServiceByServiceIdUrl (cfg : ClientApiConfig) (serviceId : String) :
    String :=
  let params := commonGetServiceParams
  cfg.discoveryApi "proxy" ++ "/pagerduty/services/" ++ serviceId ++ "?" ++ params

/-- `PagerDutyClient.getServiceByServiceId`: GET one service and return
the `service` field. -/
def getServiceByServiceId (cfg : ClientApiConfig) (serviceId : String) :
    Except ClientError (Option Json) :=
  match getByUrl cfg (getServiceByServiceIdUrl cfg serviceId) with
  | .error e => .error e
  | .ok json => destructureField json "service"

/-- The URL built by `getIncidentsByServiceId`. -/
def getIncidentsByServiceIdUrl (cfg : ClientApiConfig) (serviceId : String) :
    String :=
  let params :=
    "time_zone=UTC&sort_by=created_at&statuses[]=triggered&statuses[]=acknowledged&service_ids[]="
      ++ serviceId
  cfg.discoveryApi "proxy" ++ "/pagerduty/incidents?" ++ params

/-- `PagerDutyClient.getIncidentsByServiceId`: GET the active incidents of
a service and return the `incidents` field. -/
def getIncidentsByServiceId (cfg : ClientApiConfig) (serviceId : String) :
    Except ClientError (Option Json) :=
  match getByUrl cfg (getIncidentsByServiceIdUrl cfg serviceId) with
  | .error e => .error e
  | .ok json => destructureField json "incidents"

/-- The URL built by `getChangeEventsByServiceId`. -/
def getChangeEventsByServiceIdUrl (cfg : ClientApiConfig) (serviceId : String) :
    String :=
  let params := "limit=5&time_zone=UTC&sort_by=timestamp"
  cfg.discoveryApi "proxy" ++ "/pagerduty/services/" ++ serviceId ++
    "/change_events?" ++ params

/-- `PagerDutyClient.getChangeEventsByServiceId`: GET the recent change
events of a service and return the `change_events` field. -/
def getChangeEventsByServiceId (cfg : ClientApiConfig) (serviceId : String) :
    Except ClientError (Option Json) :=
  match getByUrl cfg (getChangeEventsByServiceIdUrl cfg serviceId) with
  | .error e => .error e
  | .ok json => destructureField json "change_events"

/-- The URL built by `getOnCallByPolicyId`. -/
def getOnCallByPolicyIdUrl (cfg : ClientApiConfig) (policyId : String) :
    String :=
  let params := "time_zone=UTC&include[]=users&escalation_policy_ids[]=" ++ policyId
  cfg.discoveryApi "proxy" ++ "/pagerduty/oncalls?" ++ params

/-- `PagerDutyClient.getOnCallByPolicyId`: GET the on-call entries of an
escalation policy and return the `oncalls` field. -/
def getOnCallByPolicyId (cfg : ClientApiConfig) (policyId : String) :
    Except ClientError (Option Json) :=
  match getByUrl cfg (getOnCallByPolicyIdUrl cfg policyId) with
  | .error e => .error e
  | .ok json => destructureField json "oncalls"

/-- The argument of `triggerAlarm`. `userName` is the optional name of the
triggering user. -/
structure TriggerAlarmRequest where
  integrationKey : String
  source : String
  description : String
  userName : Option String

/-- The object passed to `JSON.stringify` by `triggerAlarm`. The source
writes `user: userName` with `userName` possibly `undefined`;
`JSON.stringify` omits object properties whose value is `undefined`, so
the serialized `custom_details` object carries the `user` key exactly
when a user name is present, which is what the `match` models. -/
def triggerAlarmBody (request : TriggerAlarmRequest) : Json :=
  Json.obj
    [("event_action", .str "trigger"),
     ("routing_key", .str request.integrationKey),
     ("client", .str "Backstage"),
     ("client_url", .str request.source),
     ("payload", Json.obj
       [("summary", .str request.description),
        ("source", .str request.source),
        ("severity", .str "error"),
        ("class", .str "manual trigger"),
        ("custom_details", Json.obj
          (match request.userName with
           | some u => [("user", .str u)]
           | none => []))])]

/-- The options built by `triggerAlarm`: POST with the serialized body. -/
def triggerAlarmOptions (request : TriggerAlarmRequest) : RequestOptions :=
  { method := "POST"
    headers :=
      [("Content-Type", "application/json; charset=UTF-8"),
       ("Accept", "application/json, text/plain, */*")]
    body := some (Json.stringify (triggerAlarmBody request)) }

/-- `PagerDutyClient.triggerAlarm`: POST the trigger body to
`<eventsBase>/enqueue` (falling back to the public events endpoint when no
events base URL is configured) and return the classified raw response. -/
def triggerAlarm (cfg : ClientApiConfig) (req : TriggerAlarmRequest) :
    Except ClientError Response :=
  let url :=
    match cfg.eventsBaseUrl with
    | some u => u
    | none => "https://events.pagerduty.com/v2"
  request cfg (url ++ "/enqueue") (triggerAlarmOptions req)

/-!
Helpers used only on the specification side: decomposing a URL into its
query parameters, and the join of a list of strings with single spaces in
which the specification phrases the generic failure message.
-/

/-- The characters after the first occurrence of `c`, or `[]` when `c`
does not occur. -/
def afterChar (c : Char) : List Char → List Char
  | [] => []
  | x :: xs => if x = c then xs else afterChar c xs

/-- Split a character list at every occurrence of `c`. -/
def splitCharAux (c : Char) : List Char → List Char → List String
  | [], acc => [String.mk acc.reverse]
  | x :: xs, acc =>
      if x = c then String.mk acc.reverse :: splitCharAux c xs []
      else splitCharAux c xs (x :: acc)

/-- Split a string at every occurrence of `c`. -/
def splitChar (c : Char) (s : String) : List String :=
  splitCharAux c s.data []

/-- The `&`-separated query parameters of a URL: everything after the
first `?`, split at `&`. -/
def queryParams (url : String) : List String :=
  splitChar '&' (String.mk (afterChar '?' url.data))

/-- Join a list of strings with single spaces. -/
def joinSpace : List String → String
  | [] => ""
  | [s] => s
  | s :: rest => s ++ " " ++ joinSpace rest

/-!
Stub configurations used for concrete scenarios and witnesses. Each stub
transport ignores its arguments, returning a fixed response, so the
hypotheses of the general theorems hold at every URL.
-/

/-- A stub discovery function resolving every logical name, in particular
the logical name `proxy`, to a fixed base URL. -/
def stubDiscovery : String → String := fun _ => "http://backstage"

/-- A stub transport returning status 401 with body `\x7b\x7d`. -/
def stubCfg401 : ClientApiConfig :=
  { eventsBaseUrl := none
    discoveryApi := stubDiscovery
    fetchApi := fun _ _ => { status := 401, body := some (Json.obj []) } }

/-- A stub transport returning status 404 with body `\x7b\x7d`. -/
def stubCfg404 : ClientApiConfig :=
  { eventsBaseUrl := none
    discoveryApi := stubDiscovery
    fetchApi := fun _ _ => { status := 404, body := some (Json.obj []) } }

/-- The error body used in the generic-failure scenario. -/
def stubErrorsBody : Json :=
  Json.obj [("errors", Json.arr [Json.str "Not", Json.str "good"])]

/-- A stub transport returning status 500 with an `errors` array. -/
def stubCfg500 : ClientApiConfig :=
  { eventsBaseUrl := none
    discoveryApi := stubDiscovery
    fetchApi := fun _ _ => { status := 500, body := some stubErrorsBody } }

/-- A stub transport returning status 500 with a malformed body. -/
def stubCfg500Malformed : ClientApiConfig :=
  { eventsBaseUrl := none
    discoveryApi := stubDiscovery
    fetchApi := fun _ _ => { status := 500, body := none } }

/-- The top-level fields of the 2xx stub body: one entry per typed
accessor, so every named field is present. -/
def stubOkFields : List (String × Json) :=
  [("services", Json.arr [Json.obj [("id", Json.str "svc1")]]),
   ("service", Json.obj [("id", Json.str "def456"), ("name", Json.str "X")]),
   ("incidents", Json.arr []),
   ("change_events", Json.arr [Json.obj [("id", Json.str "ce1")]]),
   ("oncalls", Json.arr [])]

/-- A stub transport returning status 200 with body `stubOkFields`. -/
def stubCfg200 : ClientApiConfig :=
  { eventsBaseUrl := none
    discoveryApi := stubDiscovery
    fetchApi := fun _ _ => { status := 200, body := some (Json.obj stubOkFields) } }

/-- A stub transport returning status 200 with body
`\x7b"incidents": []\x7d`. -/
def stubCfgIncidents : ClientApiConfig :=
  { eventsBaseUrl := none
    discoveryApi := stubDiscovery
    fetchApi := fun _ _ =>
      { status := 200, body := some (Json.obj [("incidents", Json.arr [])]) } }

/-- A sample trigger request used by witnesses. -/
def sampleReq : TriggerAlarmRequest :=
  { integrationKey := "abc123"
    source := "http://a.com/service"
    description := "something broke"
    userName := some "person1" }

/-!
Helper lemmas shared by the claim theorems.
-/

/-- `Array.prototype.join` applied to an array of JavaScript strings is
the plain join of those strings with the separator, in particular the
join with single spaces when the separator is a single space. -/
theorem jsJoinList_map_str (l : List String) :
    jsJoinList (l.map Json.str) " " = joinSpace l := by
  match l with
  | [] => rfl
  | [s] => rfl
  | s :: t :: rest =>
      have ih := jsJoinList_map_str (t :: rest)
      simp only [List.map] at ih ⊢
      simp only [jsJoinList, jsJoinElem, joinSpace]
      rw [ih]

/-- A 2xx response passes through the classifier unchanged. -/
theorem request_ok (cfg : ClientApiConfig) (url : String)
    (options : RequestOptions)
    (h200 : 200 ≤ (cfg.fetchApi url options).status)
    (h299 : (cfg.fetchApi url options).status ≤ 299) :
    request cfg url options = .ok (cfg.fetchApi url options) := by
  unfold request
  rw [if_neg (by omega), if_neg (by omega), if_neg ?_]
  simp only [Response.ok, Bool.not_eq_true, Bool.not_eq_eq_eq_not,
    Bool.not_true, Bool.and_eq_false_iff]
  simp only [decide_eq_false_iff_not, not_le]
  omega

/-- A transport whose responses all carry status 401 makes the shared
classifier raise `UnauthorizedError`, whatever the body. -/
theorem request_401 (cfg : ClientApiConfig)
    (h : ∀ url options, (cfg.fetchApi url options).status = 401)
    (url : String) (options : RequestOptions) :
    request cfg url options = .error .unauthorizedError := by
  simp [request, h]

/-- A transport whose responses all carry status 404 makes the shared
classifier raise `NotFoundError`, whatever the body. -/
theorem request_404 (cfg : ClientApiConfig)
    (h : ∀ url options, (cfg.fetchApi url options).status = 404)
    (url : String) (options : RequestOptions) :
    request cfg url options = .error .notFoundError := by
  simp [request, h]

/-!
The claims.
-/

/-- Claim C1: for every client operation (every GET helper and
`triggerAlarm`), if the transport returns a response with HTTP status
401, the call raises the distinguished `UnauthorizedError` (a type
distinct from `NotFoundError` and from the generic failure, carrying no
message), regardless of the response body content. -/
theorem claim_c1_status_401_unauthorized (cfg : ClientApiConfig)
    (h : ∀ url options, (cfg.fetchApi url options).status = 401)
    (key sid pid : String) (req : TriggerAlarmRequest) :
    getServiceByIntegrationKey cfg key = .error .unauthorizedError ∧
    getServiceByServiceId cfg sid = .error .unauthorizedError ∧
    getIncidentsByServiceId cfg sid = .error .unauthorizedError ∧
    getChangeEventsByServiceId cfg sid = .error .unauthorizedError ∧
    getOnCallByPolicyId cfg pid = .error .unauthorizedError ∧
    triggerAlarm cfg req = .error .unauthorizedError ∧
    ClientError.unauthorizedError ≠ ClientError.notFoundError ∧
    ClientError.unauthorizedError.isGeneric = false ∧
    ClientError.unauthorizedError.message? = none := by
  have hreq := request_401 cfg h
  refine ⟨?_, ?_, ?_, ?_, ?_, ?_, by decide, rfl, rfl⟩ <;>
    simp only [getServiceByIntegrationKey, getServiceByServiceId,
      getIncidentsByServiceId, getChangeEventsByServiceId, getOnCallByPolicyId,
      getByUrl, triggerAlarm, hreq]

/-- Witness for claim C1: against a stub transport answering 401 with
body `\x7b\x7d`, every operation raises `UnauthorizedError`. -/
theorem claim_c1_witness :
    getServiceByIntegrationKey stubCfg401 "abc123" = .error .unauthorizedError ∧
    getServiceByServiceId stubCfg401 "def456" = .error .unauthorizedError ∧
    getIncidentsByServiceId stubCfg401 "def456" = .error .unauthorizedError ∧
    getChangeEventsByServiceId stubCfg401 "def456" = .error .unauthorizedError ∧
    getOnCallByPolicyId stubCfg401 "pol1" = .error .unauthorizedError ∧
    triggerAlarm stubCfg401 sampleReq = .error .unauthorizedError ∧
    ClientError.unauthorizedError ≠ ClientError.notFoundError ∧
    ClientError.unauthorizedError.isGeneric = false ∧
    ClientError.unauthorizedError.message? = none :=
  claim_c1_status_401_unauthorized stubCfg401 (fun _ _ => rfl)
    "abc123" "def456" "pol1" sampleReq

/-- Claim C2: for every client operation, if the transport returns a
response with HTTP status 404, the call raises the distinguished
`NotFoundError` (a type distinct from `UnauthorizedError` and from the
generic failure, carrying no message), regardless of the response body
content. -/
theorem claim_c2_status_404_not_found (cfg : ClientApiConfig)
    (h : ∀ url options, (cfg.fetchApi url options).status = 404)
    (key sid pid : String) (req : TriggerAlarmRequest) :
    getServiceByIntegrationKey cfg key = .error .notFoundError ∧
    getServiceByServiceId cfg sid = .error .notFoundError ∧
    getIncidentsByServiceId cfg sid = .error .notFoundError ∧
    getChangeEventsByServiceId cfg sid = .error .notFoundError ∧
    getOnCallByPolicyId cfg pid = .error .notFoundError ∧
    triggerAlarm cfg req = .error .notFoundError ∧
    ClientError.notFoundError ≠ ClientError.unauthorizedError ∧
    ClientError.notFoundError.isGeneric = false ∧
    ClientError.notFoundError.message? = none := by
  have hreq := request_404 cfg h
  refine ⟨?_, ?_, ?_, ?_, ?_, ?_, by decide, rfl, rfl⟩ <;>
    simp only [getServiceByIntegrationKey, getServiceByServiceId,
      getIncidentsByServiceId, getChangeEventsByServiceId, getOnCallByPolicyId,
      getByUrl, triggerAlarm, hreq]

/-- Witness for claim C2: against a stub transport answering 404 with
body `\x7b\x7d`, every operation raises `NotFoundError`. -/
theorem claim_c2_witness :
    getServiceByIntegrationKey stubCfg404 "abc123" = .error .notFoundError ∧
    getServiceByServiceId stubCfg404 "def456" = .error .notFoundError ∧
    getIncidentsByServiceId stubCfg404 "def456" = .error .notFoundError ∧
    getChangeEventsByServiceId stubCfg404 "def456" = .error .notFoundError ∧
    getOnCallByPolicyId stubCfg404 "pol1" = .error .notFoundError ∧
    triggerAlarm stubCfg404 sampleReq = .error .notFoundError ∧
    ClientError.notFoundError ≠ ClientError.unauthorizedError ∧
    ClientError.notFoundError.isGeneric = false ∧
    ClientError.notFoundError.message? = none :=
  claim_c2_status_404_not_found stubCfg404 (fun _ _ => rfl)
    "abc123" "def456" "pol1" sampleReq

/-- A transport whose responses all carry a non-2xx status other than 401
and 404 and a JSON body whose `errors` field is an array makes the shared
classifier raise the generic failure with the formatted message. -/
theorem request_generic (cfg : ClientApiConfig) (status : Nat) (j : Json)
    (errs : List Json)
    (hst : ∀ u o, (cfg.fetchApi u o).status = status)
    (hbody : ∀ u o, (cfg.fetchApi u o).body = some j)
    (hnot2xx : ¬(200 ≤ status ∧ status ≤ 299))
    (h401 : status ≠ 401) (h404 : status ≠ 404)
    (herrs : j.lookupField "errors" = some (Json.arr errs))
    (url : String) (options : RequestOptions) :
    request cfg url options =
      .error (.genericError
        ("Request failed with " ++ toString status ++ ", " ++
          jsJoinList errs " ")) := by
  have hok : (cfg.fetchApi url options).ok = false := by
    simp only [Response.ok, hst, Bool.and_eq_false_iff, decide_eq_false_iff_not,
      not_le]
    omega
  simp [request, Response.json, hst, hbody, hok, h401, h404, herrs]

/-- Claim C3: for every client operation, if the transport returns a
non-2xx status other than 401 and 404 and the response body is JSON
containing an `errors` array of strings, the call raises a generic
failure whose message equals exactly the string
`Request failed with <status>, ` followed by the elements of the `errors`
array joined with single spaces. -/
theorem claim_c3_generic_failure_message (cfg : ClientApiConfig)
    (status : Nat) (j : Json) (errs : List String)
    (hst : ∀ url options, (cfg.fetchApi url options).status = status)
    (hbody : ∀ url options, (cfg.fetchApi url options).body = some j)
    (hnot2xx : ¬(200 ≤ status ∧ status ≤ 299))
    (h401 : status ≠ 401) (h404 : status ≠ 404)
    (herrs : j.lookupField "errors" = some (Json.arr (errs.map Json.str)))
    (key sid pid : String) (req : TriggerAlarmRequest) :
    getServiceByIntegrationKey cfg key =
      .error (.genericError
        ("Request failed with " ++ toString status ++ ", " ++ joinSpace errs)) ∧
    getServiceByServiceId cfg sid =
      .error (.genericError
        ("Request failed with " ++ toString status ++ ", " ++ joinSpace errs)) ∧
    getIncidentsByServiceId cfg sid =
      .error (.genericError
        ("Request failed with " ++ toString status ++ ", " ++ joinSpace errs)) ∧
    getChangeEventsByServiceId cfg sid =
      .error (.genericError
        ("Request failed with " ++ toString status ++ ", " ++ joinSpace errs)) ∧
    getOnCallByPolicyId cfg pid =
      .error (.genericError
        ("Request failed with " ++ toString status ++ ", " ++ joinSpace errs)) ∧
    triggerAlarm cfg req =
      .error (.genericError
        ("Request failed with " ++ toString status ++ ", " ++ joinSpace errs)) := by
  have hreq := request_generic cfg status j (errs.map Json.str)
    hst hbody hnot2xx h401 h404 herrs
  rw [jsJoinList_map_str] at hreq
  refine ⟨?_, ?_, ?_, ?_, ?_, ?_⟩ <;>
    simp only [getServiceByIntegrationKey, getServiceByServiceId,
      getIncidentsByServiceId, getChangeEventsByServiceId, getOnCallByPolicyId,
      getByUrl, triggerAlarm, hreq]

/-- Witness for claim C3: against a stub transport answering 500 with
body consisting of the errors array of the two strings Not and good,
every operation raises the generic failure with the message
`Request failed with 500, Not good`. -/
theorem claim_c3_witness :
    getServiceByIntegrationKey stubCfg500 "abc123" =
      .error (.genericError "Request failed with 500, Not good") ∧
    getServiceByServiceId stubCfg500 "def456" =
      .error (.genericError "Request failed with 500, Not good") ∧
    getIncidentsByServiceId stubCfg500 "def456" =
      .error (.genericError "Request failed with 500, Not good") ∧
    getChangeEventsByServiceId stubCfg500 "def456" =
      .error (.genericError "Request failed with 500, Not good") ∧
    getOnCallByPolicyId stubCfg500 "pol1" =
      .error (.genericError "Request failed with 500, Not good") ∧
    triggerAlarm stubCfg500 sampleReq =
      .error (.genericError "Request failed with 500, Not good") :=
  claim_c3_generic_failure_message stubCfg500 500 stubErrorsBody
    ["Not", "good"] (fun _ _ => rfl) (fun _ _ => rfl) (by decide)
    (by decide) (by decide) rfl "abc123" "def456" "pol1" sampleReq

/-- Claim C4: for every 2xx response whose body is well-formed JSON, each
typed accessor returns exactly the value of its named top-level field of
the decoded body, with no filtering or transformation:
`getServiceByIntegrationKey` returns `services`, `getServiceByServiceId`
returns `service`, `getIncidentsByServiceId` returns `incidents`,
`getChangeEventsByServiceId` returns `change_events`,
`getOnCallByPolicyId` returns `oncalls`. -/
theorem claim_c4_accessors_return_named_field (cfg : ClientApiConfig)
    (fields : List (String × Json))
    (h200 : ∀ url options, 200 ≤ (cfg.fetchApi url options).status)
    (h299 : ∀ url options, (cfg.fetchApi url options).status ≤ 299)
    (hbody : ∀ url options,
      (cfg.fetchApi url options).body = some (Json.obj fields))
    (key sid pid : String) :
    getServiceByIntegrationKey cfg key = .ok (fields.lookup "services") ∧
    getServiceByServiceId cfg sid = .ok (fields.lookup "service") ∧
    getIncidentsByServiceId cfg sid = .ok (fields.lookup "incidents") ∧
    getChangeEventsByServiceId cfg sid = .ok (fields.lookup "change_events") ∧
    getOnCallByPolicyId cfg pid = .ok (fields.lookup "oncalls") := by
  refine ⟨?_, ?_, ?_, ?_, ?_⟩ <;>
    simp only [getServiceByIntegrationKey, getServiceByServiceId,
      getIncidentsByServiceId, getChangeEventsByServiceId, getOnCallByPolicyId,
      getByUrl, request_ok cfg _ getOptions (h200 _ _) (h299 _ _),
      Response.json, hbody, destructureField, Json.lookupField]

/-- Witness for claim C4, containing the concrete scenario of the claim:
against a stub transport answering 200 with a body holding all five named
fields, in particular a `service` object with id `def456`, each accessor
returns exactly the named field; in particular `getServiceByServiceId`
applied to `def456` yields the service record, whose id is `def456`. -/
theorem claim_c4_witness :
    (getServiceByIntegrationKey stubCfg200 "abc123" =
      .ok (stubOkFields.lookup "services") ∧
    getServiceByServiceId stubCfg200 "def456" =
      .ok (stubOkFields.lookup "service") ∧
    getIncidentsByServiceId stubCfg200 "def456" =
      .ok (stubOkFields.lookup "incidents") ∧
    getChangeEventsByServiceId stubCfg200 "def456" =
      .ok (stubOkFields.lookup "change_events") ∧
    getOnCallByPolicyId stubCfg200 "pol1" =
      .ok (stubOkFields.lookup "oncalls")) ∧
    stubOkFields.lookup "service" =
      some (Json.obj [("id", Json.str "def456"), ("name", Json.str "X")]) ∧
    (Json.obj [("id", Json.str "def456"), ("name", Json.str "X")]).lookupField
      "id" = some (Json.str "def456") :=
  ⟨claim_c4_accessors_return_named_field stubCfg200 stubOkFields
      (fun _ _ => by simp [stubCfg200]) (fun _ _ => by simp [stubCfg200])
      (fun _ _ => rfl) "abc123" "def456" "pol1",
    rfl, rfl⟩

/-- Claim C5: for every `TriggerAlarmRequest`, `triggerAlarm` issues a
POST to `<eventsBase>/enqueue` whose JSON body has `event_action` equal
to `trigger`, `routing_key` equal to the caller-supplied integration key,
the fixed client identifier `Backstage`, `client_url` equal to the
request source, and a payload with summary equal to the description,
source equal to the source, severity fixed to `error`, the fixed class
label `manual trigger`, and a custom-details block carrying the
triggering user name; when the optional user name is omitted the produced
body is still valid JSON (the serialized string is the serialization of a
JSON value, the `user` property being omitted). -/
theorem claim_c5_trigger_alarm_body (req : TriggerAlarmRequest)
    (cfg : ClientApiConfig) :
    (triggerAlarmBody req).lookupField "event_action" =
      some (.str "trigger") ∧
    (triggerAlarmBody req).lookupField "routing_key" =
      some (.str req.integrationKey) ∧
    (triggerAlarmBody req).lookupField "client" = some (.str "Backstage") ∧
    (triggerAlarmBody req).lookupField "client_url" = some (.str req.source) ∧
    (∃ payload, (triggerAlarmBody req).lookupField "payload" = some payload ∧
      payload.lookupField "summary" = some (.str req.description) ∧
      payload.lookupField "source" = some (.str req.source) ∧
      payload.lookupField "severity" = some (.str "error") ∧
      payload.lookupField "class" = some (.str "manual trigger") ∧
      ∃ cd, payload.lookupField "custom_details" = some cd ∧
        cd.lookupField "user" = req.userName.map Json.str) ∧
    (triggerAlarmOptions req).method = "POST" ∧
    (triggerAlarmOptions req).body =
      some (Json.stringify (triggerAlarmBody req)) ∧
    (∃ jsonValue,
      Json.stringify jsonValue = (triggerAlarmOptions req).body.getD "") ∧
    triggerAlarm cfg req =
      request cfg
        ((cfg.eventsBaseUrl.getD "https://events.pagerduty.com/v2") ++
          "/enqueue")
        (triggerAlarmOptions req) := by
  refine ⟨rfl, rfl, rfl, rfl,
    ⟨_, rfl, rfl, rfl, rfl, rfl, ⟨_, rfl, ?_⟩⟩,
    rfl, rfl, ⟨triggerAlarmBody req, rfl⟩, ?_⟩
  · cases req.userName <;> rfl
  · cases hE : cfg.eventsBaseUrl <;> simp [triggerAlarm, hE]

/-- Counterexample to claim C6: with a discovery function resolving the
logical name `proxy` to `http://backstage`, `getServiceByIntegrationKey`
applied to the key `abc123` does not issue its GET to
`<proxyBase>/services?...`: the built URL carries the additional
`/pagerduty` path segment in front of `/services`. -/
theorem claim_c6_counterexample :
    ¬ (getServiceByIntegrationKeyUrl stubCfg401 "abc123" =
      stubCfg401.discoveryApi "proxy" ++
        "/services?time_zone=UTC&include[]=integrations&include[]=escalation_policies&query=abc123") := by
  decide

/-- Claim C6 as amended: for every integration key,
`getServiceByIntegrationKey` issues a GET to the URL
`<proxyBase>/pagerduty/services` with query parameters `time_zone=UTC`,
`include[]=integrations`, `include[]=escalation_policies` and
`query=<key>`; and for every service id, `getServiceByServiceId` issues a
GET to `<proxyBase>/pagerduty/services/<id>` with the same include
parameters, where `<proxyBase>` is the URL returned by the discovery
function for the logical name `proxy`. -/
theorem claim_c6_amended_service_urls (cfg : ClientApiConfig)
    (key sid : String) :
    getServiceByIntegrationKeyUrl cfg key =
      cfg.discoveryApi "proxy" ++
        "/pagerduty/services?time_zone=UTC&include[]=integrations&include[]=escalation_policies&query="
        ++ key ∧
    getServiceByServiceIdUrl cfg sid =
      cfg.discoveryApi "proxy" ++ "/pagerduty/services/" ++ sid ++
        "?time_zone=UTC&include[]=integrations&include[]=escalation_policies" ∧
    getOptions.method = "GET" ∧
    getServiceByIntegrationKey cfg key =
      (match getByUrl cfg (getServiceByIntegrationKeyUrl cfg key) with
        | .error e => .error e
        | .ok json => destructureField json "services") ∧
    getServiceByServiceId cfg sid =
      (match getByUrl cfg (getServiceByServiceIdUrl cfg sid) with
        | .error e => .error e
        | .ok json => destructureField json "service") := by
  refine ⟨?_, ?_, rfl, rfl, rfl⟩
  · simp only [getServiceByIntegrationKeyUrl, commonGetServiceParams,
      String.append_assoc]
    congr 1
  · simp only [getServiceByServiceIdUrl, commonGetServiceParams,
      String.append_assoc]
    congr 1

/-- Claim C7: for every service id, `getIncidentsByServiceId` issues a
GET to the incidents endpoint with query parameters restricting status to
exactly triggered and acknowledged, sort order `created_at` ascending,
time zone UTC, and `service_ids[]` equal to the given id; the returned
`incidents` list may be empty, and a 2xx stub response whose body holds
an empty `incidents` array yields an empty list, not an error. -/
theorem claim_c7_incidents_query (cfg : ClientApiConfig) (sid : String) :
    getIncidentsByServiceIdUrl cfg sid =
      cfg.discoveryApi "proxy" ++
        "/pagerduty/incidents?time_zone=UTC&sort_by=created_at&statuses[]=triggered&statuses[]=acknowledged&service_ids[]="
        ++ sid ∧
    queryParams (getIncidentsByServiceIdUrl stubCfgIncidents "S1") =
      ["time_zone=UTC", "sort_by=created_at", "statuses[]=triggered",
        "statuses[]=acknowledged", "service_ids[]=S1"] ∧
    getIncidentsByServiceId stubCfgIncidents "S1" =
      .ok (some (Json.arr [])) := by
  refine ⟨?_, by decide, rfl⟩
  simp only [getIncidentsByServiceIdUrl, String.append_assoc]
  congr 1

/-- Claim C8: for every service id, `getChangeEventsByServiceId` issues a
GET to the path `/services/<id>/change_events` (under the proxied
PagerDuty mount) with query parameters exactly `limit=5`,
`time_zone=UTC` and `sort_by=timestamp`, and returns the `change_events`
field of the decoded body. -/
theorem claim_c8_change_events_query (cfg : ClientApiConfig) (sid : String)
    (fields : List (String × Json))
    (h200 : ∀ url options, 200 ≤ (cfg.fetchApi url options).status)
    (h299 : ∀ url options, (cfg.fetchApi url options).status ≤ 299)
    (hbody : ∀ url options,
      (cfg.fetchApi url options).body = some (Json.obj fields)) :
    getChangeEventsByServiceIdUrl cfg sid =
      cfg.discoveryApi "proxy" ++ "/pagerduty/services/" ++ sid ++
        "/change_events?limit=5&time_zone=UTC&sort_by=timestamp" ∧
    queryParams (getChangeEventsByServiceIdUrl stubCfg200 "S1") =
      ["limit=5", "time_zone=UTC", "sort_by=timestamp"] ∧
    getChangeEventsByServiceId cfg sid =
      .ok (fields.lookup "change_events") := by
  refine ⟨?_, by decide, ?_⟩
  · simp only [getChangeEventsByServiceIdUrl, String.append_assoc]
    congr 1
  · simp only [getChangeEventsByServiceId, getByUrl,
      request_ok cfg _ getOptions (h200 _ _) (h299 _ _),
      Response.json, hbody, destructureField, Json.lookupField]

/-- Witness for claim C8: instantiated at the 200 stub and the service id
`S1`, the built URL, its query parameters and the returned
`change_events` field are as stated. -/
theorem claim_c8_witness :
    getChangeEventsByServiceIdUrl stubCfg200 "S1" =
      stubCfg200.discoveryApi "proxy" ++ "/pagerduty/services/" ++ "S1" ++
        "/change_events?limit=5&time_zone=UTC&sort_by=timestamp" ∧
    queryParams (getChangeEventsByServiceIdUrl stubCfg200 "S1") =
      ["limit=5", "time_zone=UTC", "sort_by=timestamp"] ∧
    getChangeEventsByServiceId stubCfg200 "S1" =
      .ok (stubOkFields.lookup "change_events") :=
  claim_c8_change_events_query stubCfg200 "S1" stubOkFields
    (fun _ _ => by simp [stubCfg200]) (fun _ _ => by simp [stubCfg200])
    (fun _ _ => rfl)

/-- Claim C9: for every non-2xx response with status other than 401 and
404 whose body is not well-formed JSON, or is JSON lacking an `errors`
array, the client raises a condition that is none of the three classified
errors: not `UnauthorizedError`, not `NotFoundError`, and not a generic
failure with the formatted message; the decoding failure propagates
unhandled. -/
theorem claim_c9_unclassified_error (cfg : ClientApiConfig) (url : String)
    (options : RequestOptions)
    (h401 : (cfg.fetchApi url options).status ≠ 401)
    (h404 : (cfg.fetchApi url options).status ≠ 404)
    (hnot2xx : ¬(200 ≤ (cfg.fetchApi url options).status ∧
      (cfg.fetchApi url options).status ≤ 299))
    (hshape : ∀ j l, (cfg.fetchApi url options).body = some j →
      j.lookupField "errors" ≠ some (Json.arr l)) :
    ∃ e, request cfg url options = .error e ∧
      e ≠ ClientError.unauthorizedError ∧
      e ≠ ClientError.notFoundError ∧
      e.isGeneric = false := by
  have hok : (cfg.fetchApi url options).ok = false := by
    simp only [Response.ok, Bool.and_eq_false_iff, decide_eq_false_iff_not,
      not_le]
    omega
  cases hB : (cfg.fetchApi url options).body with
  | none =>
      exact ⟨.decodeError,
        by simp [request, h401, h404, hok, Response.json, hB],
        by decide, by decide, rfl⟩
  | some j =>
      cases hL : j.lookupField "errors" with
      | none =>
          exact ⟨.typeError,
            by simp [request, h401, h404, hok, Response.json, hB, hL],
            by decide, by decide, rfl⟩
      | some jv =>
          cases jv <;> first
            | exact absurd hL (hshape j _ hB)
            | exact ⟨.typeError,
                by simp [request, h401, h404, hok, Response.json, hB, hL],
                by decide, by decide, rfl⟩

/-- Witness for claim C9: against a stub transport answering 500 with a
malformed body, the classifier raises a condition that is neither
`UnauthorizedError` nor `NotFoundError` nor the generic failure. -/
theorem claim_c9_witness :
    ∃ e, request stubCfg500Malformed "http://backstage/pagerduty/services"
        getOptions = .error e ∧
      e ≠ ClientError.unauthorizedError ∧
      e ≠ ClientError.notFoundError ∧
      e.isGeneric = false :=
  claim_c9_unclassified_error stubCfg500Malformed
    "http://backstage/pagerduty/services" getOptions
    (by decide) (by decide) (by decide) (fun _ _ h => nomatch h)

/-- Claim C10: caller-supplied strings (integration key, service id,
escalation policy id) are interpolated into request URLs by literal
string concatenation with no percent-encoding; for every input string the
built URL equals the fixed prefix concatenated with the raw input, and an
input containing URL-reserved characters such as the ampersand or the
equals sign changes the structure of the resulting query string: the key
`x&evil=true` yields a query string with an extra `evil=true` parameter. -/
theorem claim_c10_literal_interpolation (cfg : ClientApiConfig)
    (key sid pid : String) :
    getServiceByIntegrationKeyUrl cfg key =
      (cfg.discoveryApi "proxy" ++
        "/pagerduty/services?time_zone=UTC&include[]=integrations&include[]=escalation_policies&query=")
        ++ key ∧
    getIncidentsByServiceIdUrl cfg sid =
      (cfg.discoveryApi "proxy" ++
        "/pagerduty/incidents?time_zone=UTC&sort_by=created_at&statuses[]=triggered&statuses[]=acknowledged&service_ids[]=")
        ++ sid ∧
    getOnCallByPolicyIdUrl cfg pid =
      (cfg.discoveryApi "proxy" ++
        "/pagerduty/oncalls?time_zone=UTC&include[]=users&escalation_policy_ids[]=")
        ++ pid ∧
    queryParams (getServiceByIntegrationKeyUrl stubCfg401 "abc123") =
      ["time_zone=UTC", "include[]=integrations",
        "include[]=escalation_policies", "query=abc123"] ∧
    queryParams (getServiceByIntegrationKeyUrl stubCfg401 "x&evil=true") =
      ["time_zone=UTC", "include[]=integrations",
        "include[]=escalation_policies", "query=x", "evil=true"] := by
  refine ⟨?_, ?_, ?_, by decide, by decide⟩
  · simp only [getServiceByIntegrationKeyUrl, commonGetServiceParams,
      String.append_assoc]
    congr 1
  · simp only [getIncidentsByServiceIdUrl, String.append_assoc]
    congr 1
  · simp only [getOnCallByPolicyIdUrl, String.append_assoc]
    congr 1
